import Mathlib

/-!
Shallow embedding of the repository script `configure.py` (the TensorFlow
Recommenders-Addons build-configuration generator), together with theorems
settling the specification claims about it.

Strings are modelled as Lean `String`s; where the Python code manipulates
strings character by character we work on `String.data` (a `List Char`,
matching Python's code-point view of `str`).  External effects (subprocess
calls, the installed TensorFlow's introspection API, environment variables,
the bazel version token) are inputs collected in a `World` structure; the
output `.bazelrc` file is modelled as the ordered list of the line strings
passed to `write`.
-/

deriving instance DecidableEq for Except

namespace Configure

/-- Test for an ASCII decimal digit, phrased directly on the character's
code point (48 is `0`, 57 is `9`). -/
def isAsciiDigit (c : Char) : Bool := 48 ≤ c.toNat && c.toNat ≤ 57

/-- Numeric value of a list of ASCII digit characters, most significant
first: the value Python `int` computes on a digit string. -/
def digitsToNat (l : List Char) : Nat := l.foldl (fun a c => 10 * a + (c.toNat - 48)) 0

/-- Model of Python `s.split('.')` on the character list of a string:
split on the single character `.`, keeping empty pieces; the result is
never the empty list (Python yields `[s]` when no separator occurs, in
particular a singleton empty string for empty input). -/
def pySplitDot : List Char → List (List Char)
  | [] => [[]]
  | c :: rest =>
    if c = '.' then [] :: pySplitDot rest
    else
      match pySplitDot rest with
      | [] => [[c]]
      | h :: t => (c :: h) :: t

/-- Remove leading and trailing space characters (what Python `int`
tolerates around the numeral). -/
def stripSpaces (l : List Char) : List Char :=
  ((l.dropWhile (fun c => c = ' ')).reverse.dropWhile (fun c => c = ' ')).reverse

/-- Value of a nonempty all-digit character run, `none` otherwise. -/
def digitsVal? (l : List Char) : Option Nat :=
  if l ≠ [] ∧ l.all isAsciiDigit then some (digitsToNat l) else none

/-- Model of Python `int(s)` restricted to ASCII input: surrounding spaces
are ignored, then one optional sign, then a nonempty run of decimal digits;
anything else raises Python's int-conversion `ValueError`, modelled as
`none`. -/
def pyInt? (l : List Char) : Option Int :=
  match stripSpaces l with
  | [] => none
  | c :: rest =>
    if c = '+' then (digitsVal? rest).map (fun n => (n : Int))
    else if c = '-' then (digitsVal? rest).map (fun n => -(n : Int))
    else (digitsVal? (c :: rest)).map (fun n => (n : Int))

/-- Decimal digits of `n`, most significant first.  `fuel` only bounds the
recursion: any `fuel` with `n < 10 ^ fuel` yields the digits of `n`. -/
def natDigits : Nat → Nat → List Char
  | 0, _ => []
  | fuel + 1, n =>
    if n < 10 then [Char.ofNat (48 + n)]
    else natDigits fuel (n / 10) ++ [Char.ofNat (48 + n % 10)]

/-- Model of Python `str` on a natural number. -/
def pyStrNat (n : Nat) : String := ⟨natDigits (n + 1) n⟩

/-- Model of Python `str` on an integer. -/
def pyStr (n : Int) : String := if n < 0 then "-" ++ pyStrNat n.natAbs else pyStrNat n.toNat

/-- Error taxonomy of the script: one constructor per `raise` reachable
from `create_build_configuration`, plus the uncaught errors Python itself
would raise (a failed `int` conversion after the assert block, and an index
error on missing introspection flags). -/
inductive ConfigError where
  | malformed (version : String)
  | intParse (component : String)
  | lengthNot4 (digits : String)
  | unsupportedTF (version : String)
  | bazelMismatch (installed required : String)
  | bazelBelowMacosArm64 (installed required : String)
  | extractionFailed
  | indexError
  deriving DecidableEq

/-- Embedding of `get_tf_version_integer` (configure.py lines 123-167).
The try-block unpacks `version.split('.')` into three components and
asserts their character lengths (`len(major) == 1`, `len(minor) <= 2`,
`len(patch) == 1`); any failure inside the try-block is caught by the bare
`except:` and re-raised as the single "got wrong tf.__version__"
`ValueError`, modelled as `ConfigError.malformed`.  The `int` conversions
at line 162 happen after the except clause, so a component of valid length
that is not an integer literal raises Python's own int-conversion
`ValueError` instead, modelled as `ConfigError.intParse`.  The final
`return int(tf_version_num)` converts the length-checked decimal string
back, and `int(str(m)) = m`, so the computed integer itself is returned. -/
def get_tf_version_integer (version : String) : Except ConfigError Int :=
  match pySplitDot version.data with
  | [major, minor, patch] =>
    if major.length = 1 ∧ minor.length ≤ 2 ∧ patch.length = 1 then
      match pyInt? major with
      | none => .error (.intParse ⟨major⟩)
      | some M =>
        match pyInt? minor with
        | none => .error (.intParse ⟨minor⟩)
        | some m =>
          match pyInt? patch with
          | none => .error (.intParse ⟨patch⟩)
          | some p =>
            let n : Int := M * 1000 + m * 10 + p
            if (pyStr n).length = 4 then .ok n else .error (.lengthNot4 (pyStr n))
    else .error (.malformed version)
  | _ => .error (.malformed version)

example : get_tf_version_integer "2.5.1" = .ok 2051 := by decide
example : get_tf_version_integer "1.15.2" = .ok 1152 := by decide
example : get_tf_version_integer "2.99.1" = .ok 2991 := by decide
example : get_tf_version_integer "2.0" = .error (.malformed "2.0") := by decide
example : get_tf_version_integer "10.0.0" = .error (.malformed "10.0.0") := by decide
example : get_tf_version_integer "0.5.0" = .error (.lengthNot4 "50") := by decide
example : get_tf_version_integer "a.b.c" = .error (.intParse "a") := by decide

/-- The environment variables the script consults, each possibly unset:
the arguments of every `os.getenv` call in configure.py. -/
structure Env where
  FOR_TF_SERVING : Option String
  TF_NEED_CUDA : Option String
  TF_NEED_ROCM : Option String
  CUDA_TOOLKIT_PATH : Option String
  CUDNN_INSTALL_PATH : Option String
  TF_CUDA_VERSION : Option String
  TF_CUDNN_VERSION : Option String
  ROCM_PATH : Option String
  deriving DecidableEq

/-- Host platform facts: `platform.system()`, `platform.machine()` and
`os.uname()[4]`. -/
structure Host where
  system : String
  machine : String
  uname4 : String
  deriving DecidableEq

/-- Results of the installed TensorFlow's introspection API:
`tf.__version__`, `tf.sysconfig.get_compile_flags()`,
`tf.sysconfig.get_link_flags()` and `tf.sysconfig.CXX11_ABI_FLAG`. -/
structure TFInstall where
  version : String
  compile_flags : List String
  link_flags : List String
  cxx11_abi_flag : Int
  deriving DecidableEq

/-- The whole external world one run of the script observes: host platform,
TensorFlow introspection results, environment variables, the directory of
the script (`os.path.dirname(os.path.abspath(__file__))`), the version
token parsed from `bazel version` output, and the exit status the
header-archive `tar` subprocess would return. -/
structure World where
  host : Host
  tf : TFInstall
  env : Env
  current_path : String
  installed_bazel : String
  tar_exit : Int
  deriving DecidableEq

def is_macos (w : World) : Bool := w.host.system == "Darwin"

def is_windows (w : World) : Bool := w.host.system == "Windows"

def is_linux (w : World) : Bool := w.host.system == "Linux"

def is_arm64 (w : World) : Bool := w.host.machine == "arm64"

def is_raspi_arm (w : World) : Bool := w.host.uname4 == "armv7l"

/-- Python's `<` on strings: lexicographic comparison by code point, a
proper prefix comparing below its extensions. -/
def pyStrLtAux : List Char → List Char → Bool
  | [], [] => false
  | [], _ :: _ => true
  | _ :: _, [] => false
  | c :: cs, d :: ds =>
    if c.toNat < d.toNat then true
    else if d.toNat < c.toNat then false
    else pyStrLtAux cs ds

/-- Python's `>=` on strings: lexicographic comparison by code point. -/
def pyStrGeAux : List Char → List Char → Bool
  | [], [] => true
  | [], _ :: _ => false
  | _ :: _, [] => true
  | c :: cs, d :: ds =>
    if c.toNat < d.toNat then false
    else if d.toNat < c.toNat then true
    else pyStrGeAux cs ds

def pyStrLt (s t : String) : Bool := pyStrLtAux s.data t.data

def pyStrGe (s t : String) : Bool := pyStrGeAux s.data t.data

/-- Embedding of `_VALID_BAZEL_VERSION` (configure.py lines 29-50): the
decision table mapping host platform and TensorFlow version string to the
required bazel version.  The version comparisons are Python's plain string
comparisons, lexicographic by code point.  The trailing
`else: raise ValueError(...)` branch is kept as the `unsupportedTF`
error. -/
def _VALID_BAZEL_VERSION (w : World) (tf_version : String) : Except ConfigError String :=
  if is_macos w && is_arm64 w then .ok "4.1.0"
  else if pyStrLt tf_version "2.0.0" then .ok "0.26.1"
  else if pyStrGe tf_version "2.0.0" then .ok "4.2.1"
  else .error (.unsupportedTF tf_version)

/-- The value `_VALID_BAZEL_VERSION` actually returns on every input (its
error branch is dead, see `bazel_version_decision_table`). -/
def required_bazel (w : World) : String :=
  if is_macos w && is_arm64 w then "4.1.0"
  else if pyStrLt w.tf.version "2.0.0" then "0.26.1" else "4.2.1"

/-- Embedding of `_get_installed_and_valid_bazel_version` (lines 170-175):
the installed token is parsed from the `bazel version` subprocess output,
modelled as the world input `installed_bazel`. -/
def _get_installed_and_valid_bazel_version (w : World) : Except ConfigError (String × String) :=
  match _VALID_BAZEL_VERSION w w.tf.version with
  | .error e => .error e
  | .ok v => .ok (w.installed_bazel, v)

/-- Embedding of `check_bazel_version` (lines 178-183): exact string
inequality raises. -/
def check_bazel_version (w : World) : Except ConfigError Unit :=
  match _get_installed_and_valid_bazel_version w with
  | .error e => .error e
  | .ok (i, v) => if i ≠ v then .error (.bazelMismatch i v) else .ok ()

/-- Embedding of `check_bazel_version_for_macOS_arm64` (lines 186-192):
strict lexicographic order raises. -/
def check_bazel_version_for_macOS_arm64 (w : World) : Except ConfigError Unit :=
  match _get_installed_and_valid_bazel_version w with
  | .error e => .error e
  | .ok (i, v) => if pyStrLt i v then .error (.bazelBelowMacosArm64 i v) else .ok ()

/-- Python `s[n:]`. -/
def pyDropChars (s : String) (n : Nat) : String := ⟨s.data.drop n⟩

/-- Python `s[2:-7]` (empty when the string has fewer than 10 characters,
as Python slicing clamps). -/
def pySlice2m7 (s : String) : String := ⟨(s.data.drop 2).take (s.data.length - 9)⟩

/-- Python `s.replace("\\", "/")`: the pattern is a single character, so
the replacement is a character map. -/
def replaceBackslash (s : String) : String :=
  ⟨s.data.map (fun c => if c = '\\' then '/' else c)⟩

/-- Embedding of `get_tf_header_dir` (lines 83-92). -/
def get_tf_header_dir (w : World) : Except ConfigError String :=
  match get_tf_version_integer w.tf.version with
  | .error e => .error e
  | .ok tfvi =>
    if tfvi ≥ 2000 then
      match w.tf.compile_flags with
      | f :: _ =>
        let d := pyDropChars f 2
        .ok (if is_windows w then replaceBackslash d else d)
      | [] => .error .indexError
    else .ok (w.current_path ++ "/build_deps/tf_header/" ++ w.tf.version ++ "/tensorflow")

/-- Embedding of `get_tf_shared_lib_dir` (lines 95-103). -/
def get_tf_shared_lib_dir (w : World) : Except ConfigError String :=
  if is_windows w then
    match w.tf.compile_flags with
    | f :: _ => .ok (replaceBackslash (pySlice2m7 f ++ "python"))
    | [] => .error .indexError
  else if is_raspi_arm w then
    match w.tf.compile_flags with
    | f :: _ => .ok (pySlice2m7 f ++ "python")
    | [] => .error .indexError
  else
    match w.tf.link_flags with
    | f :: _ => .ok (pyDropChars f 2)
    | [] => .error .indexError

/-- Embedding of `get_shared_lib_name` (lines 107-120): fixed literals on
macOS, Windows and Raspberry-Pi ARM, otherwise the second link flag with
its 3-character `-l:` marker stripped. -/
def get_shared_lib_name (w : World) : Except ConfigError String :=
  if is_macos w then .ok "libtensorflow_framework.dylib"
  else if is_windows w then .ok "_pywrap_tensorflow_internal.lib"
  else if is_raspi_arm w then .ok "_pywrap_tensorflow_internal.so"
  else
    match w.tf.link_flags with
    | _ :: f :: _ => .ok (pyDropChars f 3)
    | _ => .error .indexError

/-- Embedding of `extract_tf_header` (lines 195-207): for legacy versions
(< 2000) a bundled tar archive is decompressed by an `os.system` call; the
archive and output paths are pure string computations feeding only that
call, which is abstracted by the world's `tar_exit` status.  A non-zero
exit raises. -/
def extract_tf_header (w : World) : Except ConfigError Unit :=
  match get_tf_header_dir w with
  | .error e => .error e
  | .ok _ =>
    match get_tf_version_integer w.tf.version with
    | .error e => .error e
    | .ok tfvi =>
      if tfvi < 2000 then
        if w.tar_exit ≠ 0 then .error .extractionFailed else .ok ()
      else .ok ()

/-- The line `write_action_env` (lines 59-60) appends for a variable and a
value: Python `'build --action_env {VAR}="{VALUE}"'.format(...)`. -/
def write_action_env_line (var v : String) : String :=
  "build --action_env " ++ var ++ "=\"" ++ v ++ "\""

/-- The fixed Windows block (lines 238-243). -/
def windows_lines : List String :=
  ["build --config=windows",
   "build:windows --enable_runfiles",
   "build:windows --copt=/experimental:preprocessor",
   "build:windows --host_copt=/experimental:preprocessor",
   "build:windows --copt=/arch=AVX"]

/-- Embedding of `configure_cuda` (lines 263-277) as the list of lines it
appends, in order. -/
def configure_cuda_lines (e : Env) : List String :=
  [write_action_env_line "TF_NEED_CUDA" "1",
   write_action_env_line "CUDA_TOOLKIT_PATH" (e.CUDA_TOOLKIT_PATH.getD "/usr/local/cuda"),
   write_action_env_line "CUDNN_INSTALL_PATH" (e.CUDNN_INSTALL_PATH.getD "/usr/lib/x86_64-linux-gnu"),
   write_action_env_line "TF_CUDA_VERSION" (e.TF_CUDA_VERSION.getD "11.0"),
   write_action_env_line "TF_CUDNN_VERSION" (e.TF_CUDNN_VERSION.getD "8.0"),
   "test --config=cuda",
   "build --config=cuda",
   "build:cuda --define=using_cuda=true --define=using_cuda_nvcc=true",
   "build:cuda --crosstool_top=@local_config_cuda//crosstool:toolchain"]

/-- Embedding of `configure_rocm` (lines 280-290) as the list of lines it
appends, in order. -/
def configure_rocm_lines (e : Env) : List String :=
  [write_action_env_line "TF_NEED_ROCM" "1",
   write_action_env_line "ROCM_PATH" (e.ROCM_PATH.getD "/opt/rocm"),
   "test --config=rocm",
   "build --config=rocm",
   "build:rocm --define=using_rocm_hipcc=true",
   "build:rocm --define=tensorflow_mkldnn_contraction_kernel=0",
   "build:rocm --repo_env TF_NEED_ROCM=1",
   "build:rocm --crosstool_top=@local_config_rocm//crosstool:toolchain"]

/-- The GPU-backend block chosen at lines 249-256: the CUDA block iff
`os.getenv("TF_NEED_CUDA", "0") == "1"`, else the ROCm block iff
`os.getenv("TF_NEED_ROCM", "0") == "1"`, else nothing. -/
def gpu_lines (w : World) : List String :=
  if w.env.TF_NEED_CUDA.getD "0" == "1" then configure_cuda_lines w.env
  else if w.env.TF_NEED_ROCM.getD "0" == "1" then configure_rocm_lines w.env
  else []

/-- The full line sequence a successful run appends (lines 223-256), given
the already-resolved header dir, shared-lib dir, shared-lib name and
version integer. -/
def base_lines (w : World) (hd sld sln : String) (tfvi : Int) : List String :=
  [write_action_env_line "TF_HEADER_DIR" hd,
   write_action_env_line "TF_SHARED_LIBRARY_DIR" sld,
   write_action_env_line "TF_SHARED_LIBRARY_NAME" sln,
   write_action_env_line "TF_CXX11_ABI_FLAG" (pyStr w.tf.cxx11_abi_flag),
   write_action_env_line "TF_VERSION_INTEGER" (pyStr tfvi),
   write_action_env_line "FOR_TF_SERVING" (w.env.FOR_TF_SERVING.getD "0"),
   "build --spawn_strategy=standalone",
   "build --strategy=Genrule=standalone",
   "build -c opt"]
  ++ (if is_windows w then windows_lines else [])
  ++ (if (is_macos w || is_linux w) && !is_arm64 w then ["build --copt=-mavx"] else [])

/-- The validation prefix of `create_build_configuration` (lines 216-220):
bazel version check on Linux, the arm64 ordering check on macOS arm64, then
header extraction; all of it runs before the first `write`. -/
def validate_phase (w : World) : Except ConfigError Unit :=
  match (if is_linux w then check_bazel_version w else .ok ()) with
  | .error e => .error e
  | .ok _ =>
    match (if is_macos w && is_arm64 w then check_bazel_version_for_macOS_arm64 w else .ok ()) with
    | .error e => .error e
    | .ok _ => extract_tf_header w

/-- The write phase of `create_build_configuration` (lines 223-256): each
step's value is computed right before its `write` call, so a failing
resolution leaves exactly the lines already appended.  Returns the appended
lines together with the error that aborted the run, if any. -/
def emit_phase (w : World) : List String × Option ConfigError :=
  match get_tf_header_dir w with
  | .error e => ([], some e)
  | .ok hd =>
    match get_tf_shared_lib_dir w with
    | .error e => ([write_action_env_line "TF_HEADER_DIR" hd], some e)
    | .ok sld =>
      match get_shared_lib_name w with
      | .error e =>
        ([write_action_env_line "TF_HEADER_DIR" hd,
          write_action_env_line "TF_SHARED_LIBRARY_DIR" sld], some e)
      | .ok sln =>
        match get_tf_version_integer w.tf.version with
        | .error e =>
          ([write_action_env_line "TF_HEADER_DIR" hd,
            write_action_env_line "TF_SHARED_LIBRARY_DIR" sld,
            write_action_env_line "TF_SHARED_LIBRARY_NAME" sln,
            write_action_env_line "TF_CXX11_ABI_FLAG" (pyStr w.tf.cxx11_abi_flag)], some e)
        | .ok tfvi => (base_lines w hd sld sln tfvi ++ gpu_lines w, none)

/-- One run of `create_build_configuration` (lines 210-260): the previous
`.bazelrc` is deleted first, validation runs, then the lines are appended
one by one.  Result: the lines this run appended, and the error that
aborted it, if any. -/
def run (w : World) : List String × Option ConfigError :=
  match validate_phase w with
  | .error e => ([], some e)
  | .ok _ => emit_phase w

/-- One `write` call (lines 54-56): opening `.bazelrc` in append mode
creates the file when it is missing, then appends the line. -/
def file_append (st : Option (List String)) (l : String) : Option (List String) :=
  some (st.getD [] ++ [l])

/-- The `.bazelrc` state a run leaves behind, starting from a previous file
state `prev`: lines 214-215 delete the old file if it exists, then every
appended line lands in the file; `none` is a missing file. -/
def file_after_run (prev : Option (List String)) (w : World) : Option (List String) :=
  (run w).1.foldl file_append (if prev.isSome then none else prev)

/-- The byte content of a possible `.bazelrc` file: each appended line is
written with a trailing newline. -/
def file_bytes (o : Option (List String)) : Option String :=
  o.map (fun ls => String.join (ls.map (fun l => l ++ "\n")))

/-- The character-length constraint the assert block of
`get_tf_version_integer` actually enforces: exactly three dot-separated
components, the first and last of exactly one character, the middle of at
most two. -/
def goodShapeB (l : List Char) : Bool :=
  match pySplitDot l with
  | [a, b, c] => a.length == 1 && decide (b.length ≤ 2) && c.length == 1
  | _ => false

theorem pySplitDot_no_dot (l : List Char) (h : '.' ∉ l) : pySplitDot l = [l] := by
  induction l with
  | nil => rfl
  | cons c t ih =>
    have hc : ¬ (c = '.') := fun hc => h (hc ▸ List.mem_cons_self c t)
    have ht : '.' ∉ t := fun hm => h (List.mem_cons_of_mem c hm)
    simp [pySplitDot, hc, ih ht]

theorem pySplitDot_append_dot (x y : List Char) (hx : '.' ∉ x) :
    pySplitDot (x ++ '.' :: y) = x :: pySplitDot y := by
  induction x with
  | nil => simp [pySplitDot]
  | cons c t ih =>
    have hc : ¬ (c = '.') := fun hc => hx (hc ▸ List.mem_cons_self c t)
    have ht : '.' ∉ t := fun hm => hx (List.mem_cons_of_mem c hm)
    simp [pySplitDot, hc, ih ht]

theorem pySplitDot_three (a b c : List Char) (ha : '.' ∉ a) (hb : '.' ∉ b)
    (hc : '.' ∉ c) : pySplitDot (a ++ '.' :: (b ++ '.' :: c)) = [a, b, c] := by
  rw [pySplitDot_append_dot _ _ ha, pySplitDot_append_dot _ _ hb, pySplitDot_no_dot _ hc]

theorem dropWhile_eq_self_of_not_head (p : Char → Bool) (l : List Char)
    (h : ∀ c ∈ l, p c = false) : l.dropWhile p = l := by
  cases l with
  | nil => rfl
  | cons c t => rw [List.dropWhile_cons, h c (List.mem_cons_self c t)]; simp

theorem stripSpaces_eq_self (l : List Char) (h : ∀ c ∈ l, c ≠ ' ') :
    stripSpaces l = l := by
  unfold stripSpaces
  have h1 : l.dropWhile (fun c => c = ' ') = l :=
    dropWhile_eq_self_of_not_head _ _ (fun c hc => by simp [h c hc])
  rw [h1]
  have h2 : l.reverse.dropWhile (fun c => c = ' ') = l.reverse :=
    dropWhile_eq_self_of_not_head _ _ (fun c hc => by simp [h c (List.mem_reverse.mp hc)])
  rw [h2, List.reverse_reverse]

theorem pyInt?_digits (l : List Char) (hne : l ≠ []) (hd : l.all isAsciiDigit = true) :
    pyInt? l = some ((digitsToNat l : Nat) : Int) := by
  have hs : ∀ c ∈ l, c ≠ ' ' := by
    intro c hc heq
    have hdc := List.all_eq_true.mp hd c hc
    rw [heq] at hdc
    exact absurd hdc (by decide)
  unfold pyInt?
  rw [stripSpaces_eq_self l hs]
  cases l with
  | nil => exact absurd rfl hne
  | cons c t =>
    have hcd : isAsciiDigit c = true := List.all_eq_true.mp hd c (List.mem_cons_self c t)
    have hc1 : ¬ (c = '+') := fun h => absurd (h ▸ hcd) (by decide)
    have hc2 : ¬ (c = '-') := fun h => absurd (h ▸ hcd) (by decide)
    simp [hc1, hc2, digitsVal?, hd]

theorem digitVal_le_9 (c : Char) (h : isAsciiDigit c = true) : c.toNat - 48 ≤ 9 := by
  simp [isAsciiDigit] at h
  omega

theorem digitVal_single (c : Char) : digitsToNat [c] = c.toNat - 48 := by
  simp [digitsToNat]

theorem digitsToNat_le_99 (l : List Char) (h2 : l.length ≤ 2)
    (hd : l.all isAsciiDigit = true) : digitsToNat l ≤ 99 := by
  match l with
  | [] => simp [digitsToNat]
  | [c] =>
    have := digitVal_le_9 c (by simpa using hd)
    simp [digitsToNat]
    omega
  | [c, d] =>
    have hc := digitVal_le_9 c (by simp at hd; exact hd.1)
    have hdd := digitVal_le_9 d (by simp at hd; exact hd.2)
    simp [digitsToNat]
    omega
  | _ :: _ :: _ :: _ => simp at h2

theorem natDigits_length (fuel : Nat) : ∀ n : Nat, 0 < fuel → n < 10 ^ fuel →
    (natDigits fuel n).length = Nat.log 10 n + 1 := by
  induction fuel with
  | zero => intro n hf _; omega
  | succ f ih =>
    intro n _ hn
    by_cases h10 : n < 10
    · rw [natDigits, if_pos h10]
      rw [Nat.log_eq_zero_iff.mpr (Or.inl h10)]
      rfl
    · rw [natDigits, if_neg h10]
      have hfpos : 0 < f := by
        rcases Nat.eq_zero_or_pos f with hf0 | hf0
        · rw [hf0, pow_one] at hn; omega
        · exact hf0
      have hdiv : n / 10 < 10 ^ f := by
        rw [Nat.div_lt_iff_lt_mul (by norm_num)]
        calc n < 10 ^ (f + 1) := hn
          _ = 10 ^ f * 10 := by rw [pow_succ]
      rw [List.length_append, ih (n / 10) hfpos hdiv]
      have hlog : 0 < Nat.log 10 n := Nat.log_pos (by norm_num) (by omega)
      have := Nat.log_div_base 10 n
      simp only [List.length_cons, List.length_nil]
      omega

theorem pyStrNat_length_4 (n : Nat) (h1 : 1000 ≤ n) (h2 : n < 10000) :
    (pyStrNat n).length = 4 := by
  have hfuel : n < 10 ^ (n + 1) :=
    lt_of_lt_of_le (Nat.lt_pow_self (by norm_num) n)
      (Nat.pow_le_pow_right (by norm_num) (Nat.le_succ n))
  have hlen : (pyStrNat n).length = (natDigits (n + 1) n).length := rfl
  rw [hlen, natDigits_length (n + 1) n (Nat.succ_pos n) hfuel]
  have hlog : Nat.log 10 n = 3 :=
    Nat.log_eq_of_pow_le_of_lt_pow (by norm_num; omega) (by norm_num; omega)
  omega

/-- C1 (amended): for every version string `M.mm.p` whose major `M` is a
single digit in 1..9, whose minor `mm` is one or two digits, and whose
patch `p` is a single digit, `get_tf_version_integer` returns the integer
`M*1000 + mm*10 + p`, and the decimal representation of that value has
exactly 4 digits (1000 ≤ value ≤ 9999), so the length-check error branch is
unreachable for those inputs.  For `M = 0` — also a 1-digit major — the
claim as frozen fails: the length check fires; see the counterexample. -/
theorem version_integer_on_valid_versions (Mc pc : Char) (mm : List Char)
    (hM1 : 49 ≤ Mc.toNat) (hM9 : Mc.toNat ≤ 57)
    (hp : isAsciiDigit pc = true)
    (hmm0 : mm ≠ []) (hmm2 : mm.length ≤ 2) (hmmd : mm.all isAsciiDigit = true) :
    get_tf_version_integer ⟨Mc :: '.' :: (mm ++ '.' :: [pc])⟩ =
      .ok (((Mc.toNat - 48) * 1000 + digitsToNat mm * 10 + (pc.toNat - 48) : Nat) : Int) ∧
    (pyStrNat ((Mc.toNat - 48) * 1000 + digitsToNat mm * 10 + (pc.toNat - 48))).length = 4 := by
  have hMd : isAsciiDigit Mc = true := by simp [isAsciiDigit]; omega
  have hMdot : '.' ∉ [Mc] := by
    intro h
    have h' := List.mem_singleton.mp h
    rw [← h'] at hM1
    exact absurd hM1 (by decide)
  have hmmdot : '.' ∉ mm := by
    intro h
    have := List.all_eq_true.mp hmmd '.' h
    exact absurd this (by decide)
  have hpdot : '.' ∉ [pc] := by
    intro h
    have h' := List.mem_singleton.mp h
    rw [← h'] at hp
    exact absurd hp (by decide)
  have hsplit : pySplitDot ((⟨Mc :: '.' :: (mm ++ '.' :: [pc])⟩ : String).data)
      = [[Mc], mm, [pc]] := by
    have hdata : (⟨Mc :: '.' :: (mm ++ '.' :: [pc])⟩ : String).data
        = [Mc] ++ '.' :: (mm ++ '.' :: [pc]) := rfl
    rw [hdata, pySplitDot_three _ _ _ hMdot hmmdot hpdot]
  have hsing : pyInt? [Mc] = some ((Mc.toNat - 48 : Nat) : Int) := by
    rw [pyInt?_digits [Mc] (by simp) (by simp [hMd]), digitVal_single]
  have hminor : pyInt? mm = some ((digitsToNat mm : Nat) : Int) := pyInt?_digits mm hmm0 hmmd
  have hpatch : pyInt? [pc] = some ((pc.toNat - 48 : Nat) : Int) := by
    rw [pyInt?_digits [pc] (by simp) (by simp [hp]), digitVal_single]
  have hbB : digitsToNat mm ≤ 99 := digitsToNat_le_99 mm hmm2 hmmd
  have hpB : pc.toNat - 48 ≤ 9 := digitVal_le_9 pc hp
  have hrange1 : 1000 ≤ (Mc.toNat - 48) * 1000 + digitsToNat mm * 10 + (pc.toNat - 48) := by
    omega
  have hrange2 : (Mc.toNat - 48) * 1000 + digitsToNat mm * 10 + (pc.toNat - 48) < 10000 := by
    omega
  have hlen4 := pyStrNat_length_4 _ hrange1 hrange2
  refine ⟨?_, hlen4⟩
  unfold get_tf_version_integer
  rw [hsplit]
  dsimp only
  rw [if_pos ⟨by simp, hmm2, by simp⟩, hsing]
  dsimp only
  rw [hminor]
  dsimp only
  rw [hpatch]
  dsimp only
  have hcast : ((((Mc.toNat - 48 : Nat) : Int)) * 1000 + ((digitsToNat mm : Nat) : Int) * 10
      + (((pc.toNat - 48 : Nat) : Int)) : Int)
      = (((Mc.toNat - 48) * 1000 + digitsToNat mm * 10 + (pc.toNat - 48) : Nat) : Int) := by
    push_cast
    ring
  rw [hcast]
  have hpy : pyStr (((Mc.toNat - 48) * 1000 + digitsToNat mm * 10 + (pc.toNat - 48) : Nat) : Int)
      = pyStrNat ((Mc.toNat - 48) * 1000 + digitsToNat mm * 10 + (pc.toNat - 48)) := by
    rw [pyStr, if_neg (by omega)]
    congr 1
  rw [hpy, if_pos hlen4]

/-- Boundary witness for the valid-version theorem: `"2.99.1"` yields 2991,
whose decimal form has 4 digits. -/
theorem version_integer_on_valid_versions_witness :
    get_tf_version_integer "2.99.1" = .ok 2991 ∧ (pyStrNat 2991).length = 4 := by
  have h := version_integer_on_valid_versions '2' '1' ['9', '9'] (by decide) (by decide)
    (by decide) (by decide) (by decide) (by decide)
  have hs : (⟨'2' :: '.' :: (['9', '9'] ++ '.' :: ['1'])⟩ : String) = "2.99.1" := rfl
  rw [hs] at h
  have hv : ('2'.toNat - 48) * 1000 + digitsToNat ['9', '9'] * 10 + ('1'.toNat - 48) = 2991 := by
    decide
  rw [hv] at h
  exact ⟨by rw [h.1]; decide, h.2⟩

/-- C1 counterexample: `"0.5.0"` is of the form `M.mm.p` with a one-digit
major, a one-digit minor and a one-digit patch, yet `get_tf_version_integer`
does not return `0*1000 + 5*10 + 0 = 50`: the decimal form `"50"` has
length 2, so the length-4 check raises instead. -/
theorem version_integer_zero_major_counterexample :
    get_tf_version_integer "0.5.0" = .error (.lengthNot4 "50") ∧
    ¬ get_tf_version_integer "0.5.0" = .ok 50 := by decide

/-- C7 (amended): every version string that does not split into exactly
three dot-separated components with the first of exactly one character, the
second of at most two and the third of exactly one raises the single
"got wrong tf.__version__" error (`ConfigError.malformed`); in particular
`"2.0"` (missing patch) and `"10.0.0"` (major of length 2) do.  The
constraint is on character counts, not digits: see the counterexample for
components of valid length that are not numeric. -/
theorem malformed_version_spec :
    (∀ v : String, goodShapeB v.data = false →
      get_tf_version_integer v = .error (.malformed v)) ∧
    get_tf_version_integer "2.0" = .error (.malformed "2.0") ∧
    get_tf_version_integer "10.0.0" = .error (.malformed "10.0.0") := by
  refine ⟨?_, by decide, by decide⟩
  intro v h
  unfold goodShapeB at h
  unfold get_tf_version_integer
  rcases hsp : pySplitDot v.data with _ | ⟨a, _ | ⟨b, _ | ⟨c, _ | ⟨d, t⟩⟩⟩⟩ <;>
    rw [hsp] at h <;> dsimp only at h ⊢
  rw [if_neg]
  intro hcond
  rcases hcond with ⟨h1, h2, h3⟩
  simp [h1, h2, h3] at h

/-- Witness for the malformed-version theorem at the concrete input
`"2.0"`. -/
theorem malformed_version_spec_witness :
    goodShapeB ("2.0").data = false ∧
    get_tf_version_integer "2.0" = .error (.malformed "2.0") :=
  ⟨by decide, malformed_version_spec.1 "2.0" (by decide)⟩

/-- C7 counterexample: `"a.b.c"` violates the digit constraints (its major
`"a"` is not a digit), but the code does not raise the
"got wrong tf.__version__" error for it: the length asserts inspect only
character counts, all pass, and the later `int('a')` conversion — outside
the try/except — raises Python's own int-conversion error instead. -/
theorem nondigit_component_counterexample :
    get_tf_version_integer "a.b.c" = .error (.intParse "a") ∧
    ¬ get_tf_version_integer "a.b.c" = .error (.malformed "a.b.c") ∧
    isAsciiDigit 'a' = false := by decide

/-- A world with the given `platform.system()` and `platform.machine()`
values and everything else fixed, for the concrete decision-table rows. -/
def mkHostWorld (sys mach : String) : World :=
  ⟨⟨sys, mach, ""⟩, ⟨"2.5.1", [], [], 0⟩,
   ⟨none, none, none, none, none, none, none, none⟩, "", "", 0⟩

theorem pyStrGeAux_eq_not_lt (a : List Char) : ∀ b, pyStrGeAux a b = !pyStrLtAux a b := by
  induction a with
  | nil => intro b; cases b <;> rfl
  | cons c cs ih =>
    intro b
    cases b with
    | nil => rfl
    | cons d ds =>
      rw [pyStrGeAux, pyStrLtAux]
      split_ifs <;> simp [ih ds]

theorem VALID_BAZEL_eq (w : World) (v : String) : _VALID_BAZEL_VERSION w v =
    .ok (if is_macos w && is_arm64 w then "4.1.0"
         else if pyStrLt v "2.0.0" then "0.26.1" else "4.2.1") := by
  unfold _VALID_BAZEL_VERSION
  by_cases h1 : (is_macos w && is_arm64 w) = true
  · rw [if_pos h1, if_pos h1]
  · rw [if_neg h1, if_neg h1]
    by_cases h2 : pyStrLt v "2.0.0" = true
    · rw [if_pos h2, if_pos h2]
    · rw [if_neg h2, if_neg h2, if_pos]
      show pyStrGe v "2.0.0" = true
      rw [pyStrGe, pyStrGeAux_eq_not_lt]
      simp only [pyStrLt] at h2
      simp [h2]

/-- C2: `_VALID_BAZEL_VERSION` is the three-row decision table: macOS on
arm64 always gives `"4.1.0"` (for any framework version); otherwise a
version string lexicographically below `"2.0.0"` gives `"0.26.1"`;
otherwise `"4.2.1"`.  The result is always `ok` — the trailing
`raise ValueError` branch is unreachable — and the three concrete rows of
the claim hold. -/
theorem bazel_version_decision_table :
    (∀ (w : World) (v : String), _VALID_BAZEL_VERSION w v =
      .ok (if is_macos w && is_arm64 w then "4.1.0"
           else if pyStrLt v "2.0.0" then "0.26.1" else "4.2.1")) ∧
    _VALID_BAZEL_VERSION (mkHostWorld "Darwin" "arm64") "2.5.1" = .ok "4.1.0" ∧
    _VALID_BAZEL_VERSION (mkHostWorld "Linux" "x86_64") "1.15.2" = .ok "0.26.1" ∧
    _VALID_BAZEL_VERSION (mkHostWorld "Linux" "x86_64") "2.5.1" = .ok "4.2.1" :=
  ⟨fun w v => VALID_BAZEL_eq w v, by decide, by decide, by decide⟩

/-- An environment with every variable unset. -/
def env0 : Env := ⟨none, none, none, none, none, none, none, none⟩

/-- An environment with only `TF_NEED_CUDA=1` set. -/
def envCuda : Env := ⟨none, some "1", none, none, none, none, none, none⟩

/-- A fully concrete Windows x86-64 world: TensorFlow 2.5.1 installed, no
GPU variables, and an installed bazel token that matches no required
version. -/
def wWindows : World :=
  ⟨⟨"Windows", "AMD64", ""⟩, ⟨"2.5.1", ["-I/tf/include"], [], 0⟩, env0, "/src", "0.0.0", 0⟩

/-- The same Windows world with `TF_NEED_CUDA=1`. -/
def wWindowsCuda : World :=
  ⟨⟨"Windows", "AMD64", ""⟩, ⟨"2.5.1", ["-I/tf/include"], [], 0⟩, envCuda, "/src", "0.0.0", 0⟩

/-- A fully concrete Linux x86-64 world with a matching bazel 4.2.1. -/
def wLinux : World :=
  ⟨⟨"Linux", "x86_64", "x86_64"⟩,
   ⟨"2.5.1", ["-I/tf/include"], ["-L/tf", "-l:libtensorflow_framework.so.2"], 1⟩,
   env0, "/src", "4.2.1", 0⟩

/-- A Windows world whose TensorFlow reports the malformed version
`"2.0"`, so validation fails before any write. -/
def wBadVersion : World :=
  ⟨⟨"Windows", "AMD64", ""⟩, ⟨"2.0", ["-I/tf/include"], [], 0⟩, env0, "/src", "4.2.1", 0⟩

example : (run wWindows).2 = none := by decide
example : (run wLinux).2 = none := by decide
example : run wBadVersion = ([], some (.malformed "2.0")) := by decide

/-- Structure of every successful run: all four resolutions succeeded and
the appended lines are exactly the base sequence followed by the GPU
block. -/
theorem run_success_shape (w : World) (h : (run w).2 = none) :
    ∃ hd sld sln tfvi, get_tf_header_dir w = .ok hd ∧ get_tf_shared_lib_dir w = .ok sld ∧
      get_shared_lib_name w = .ok sln ∧ get_tf_version_integer w.tf.version = .ok tfvi ∧
      (run w).1 = base_lines w hd sld sln tfvi ++ gpu_lines w := by
  rcases hv : validate_phase w with e | u
  · have hr : run w = ([], some e) := by unfold run; rw [hv]
    rw [hr] at h
    simp at h
  rcases h1 : get_tf_header_dir w with e | hd
  · have hr : run w = ([], some e) := by unfold run emit_phase; rw [hv, h1]
    rw [hr] at h
    simp at h
  rcases h2 : get_tf_shared_lib_dir w with e | sld
  · have hr : (run w).2 = some e := by unfold run emit_phase; rw [hv, h1, h2]
    rw [hr] at h
    simp at h
  rcases h3 : get_shared_lib_name w with e | sln
  · have hr : (run w).2 = some e := by unfold run emit_phase; rw [hv, h1, h2, h3]
    rw [hr] at h
    simp at h
  rcases h4 : get_tf_version_integer w.tf.version with e | tfvi
  · have hr : (run w).2 = some e := by unfold run emit_phase; rw [hv, h1, h2, h3, h4]
    rw [hr] at h
    simp at h
  have hr : run w = (base_lines w hd sld sln tfvi ++ gpu_lines w, none) := by
    unfold run emit_phase
    rw [hv, h1, h2, h3, h4]
  exact ⟨hd, sld, sln, tfvi, rfl, rfl, rfl, rfl, by rw [hr]⟩

/-- A Linux world whose installed bazel token `"4.1.0"` differs from the
required `"4.2.1"`. -/
def wLinuxBadBazel : World :=
  ⟨⟨"Linux", "x86_64", "x86_64"⟩,
   ⟨"2.5.1", ["-I/tf/include"], ["-L/tf", "-l:libtensorflow_framework.so.2"], 1⟩,
   env0, "/src", "4.1.0", 0⟩

/-- A macOS arm64 world whose installed bazel token `"4.0.0"` orders below
the required `"4.1.0"`. -/
def wMacArm : World :=
  ⟨⟨"Darwin", "arm64", "arm64"⟩,
   ⟨"2.5.1", ["-I/tf/include"], ["-L/tf", "-l:libtensorflow_framework.so.2"], 1⟩,
   env0, "/src", "4.0.0", 0⟩

/-- C3 counterexample: on a Windows host — not macOS-arm64 — the installed
bazel token differs from the required version, yet the run succeeds and
writes the configuration file: `create_build_configuration` invokes the
exact-match bazel check only under `is_linux()`, so no check runs at
all. -/
theorem windows_no_bazel_check_counterexample :
    (is_macos wWindows && is_arm64 wWindows) = false ∧
    ¬ wWindows.installed_bazel = required_bazel wWindows ∧
    (run wWindows).2 = none ∧
    ¬ file_after_run none wWindows = none := by decide

/-- C3 (amended): the exact-match bazel check runs only on Linux hosts —
there a mismatching installed token aborts the run with the mismatch error
before anything is written, leaving the file missing; on macOS-arm64 hosts
the ordering check fails iff the installed token orders strictly below the
required version; on every other host (Windows, macOS non-arm64) no bazel
version check is performed at all and validation is just header
extraction. -/
theorem bazel_check_platform_spec :
    (∀ (w : World) (p : Option (List String)), is_linux w = true →
      ¬ w.installed_bazel = required_bazel w →
      run w = ([], some (.bazelMismatch w.installed_bazel (required_bazel w))) ∧
      file_after_run p w = none) ∧
    (∀ w : World, is_macos w = true → is_arm64 w = true →
      ((∃ e, check_bazel_version_for_macOS_arm64 w = .error e) ↔
        pyStrLt w.installed_bazel "4.1.0" = true)) ∧
    (∀ w : World, is_linux w = false → (is_macos w && is_arm64 w) = false →
      validate_phase w = extract_tf_header w) := by
  refine ⟨?_, ?_, ?_⟩
  · intro w p hl hne
    have hval : _VALID_BAZEL_VERSION w w.tf.version = .ok (required_bazel w) := by
      rw [VALID_BAZEL_eq w w.tf.version]
      rfl
    have hchk : check_bazel_version w
        = .error (.bazelMismatch w.installed_bazel (required_bazel w)) := by
      unfold check_bazel_version _get_installed_and_valid_bazel_version
      rw [hval]
      dsimp only
      rw [if_pos hne]
    have hvp : validate_phase w
        = .error (.bazelMismatch w.installed_bazel (required_bazel w)) := by
      unfold validate_phase
      rw [if_pos hl, hchk]
    have hr : run w = ([], some (.bazelMismatch w.installed_bazel (required_bazel w))) := by
      unfold run
      rw [hvp]
    refine ⟨hr, ?_⟩
    unfold file_after_run
    rw [hr]
    cases p <;> rfl
  · intro w hm ha
    have hval : _VALID_BAZEL_VERSION w w.tf.version = .ok "4.1.0" := by
      rw [VALID_BAZEL_eq w w.tf.version]
      simp [hm, ha]
    unfold check_bazel_version_for_macOS_arm64 _get_installed_and_valid_bazel_version
    rw [hval]
    dsimp only
    by_cases hlt : pyStrLt w.installed_bazel "4.1.0" = true
    · rw [if_pos hlt]
      simp [hlt]
    · rw [if_neg hlt]
      simp [hlt]
  · intro w hl hma
    unfold validate_phase
    rw [if_neg (by simp [hl]), if_neg (by simp [hma])]

/-- Witness for the amended bazel-check theorem at three concrete worlds:
a mismatching Linux host aborts with the mismatch error and a missing
file; a macOS-arm64 host with bazel 4.0.0 fails the ordering check; the
Windows world skips the bazel checks entirely. -/
theorem bazel_check_platform_spec_witness :
    run wLinuxBadBazel = ([], some (.bazelMismatch "4.1.0" "4.2.1")) ∧
    file_after_run none wLinuxBadBazel = none ∧
    (∃ e, check_bazel_version_for_macOS_arm64 wMacArm = .error e) ∧
    validate_phase wWindows = extract_tf_header wWindows := by
  have h1 := bazel_check_platform_spec.1 wLinuxBadBazel none (by decide) (by decide)
  have h2 := (bazel_check_platform_spec.2.1 wMacArm (by decide) (by decide)).mpr (by decide)
  have h3 := bazel_check_platform_spec.2.2 wWindows (by decide) (by decide)
  refine ⟨?_, h1.2, h2, h3⟩
  rw [h1.1]
  decide

/-- The three directive-line forms the specification names for `.bazelrc`
lines, as predicates on the line's characters: an action-env line
`build --action_env VAR="VALUE"`, a plain `build <flag>` line, and a
config-scoped `build:<config> <flag>` line. -/
def LineForm (s : String) : Prop :=
  (∃ var val : List Char,
    s.data = "build --action_env ".data ++ var ++ '=' :: '"' :: (val ++ ['"']))
  ∨ (∃ flag : List Char, s.data = "build ".data ++ flag)
  ∨ (∃ cfg flag : List Char, s.data = "build:".data ++ cfg ++ ' ' :: flag)

/-- The directive-line forms the code actually emits: the three above plus
the `test --config=<config>` lines of the GPU blocks. -/
def LineFormT (s : String) : Prop :=
  LineForm s ∨ ∃ cfg : List Char, s.data = "test --config=".data ++ cfg

theorem lineForm_head (s : String) (h : LineForm s) : s.data.head? = some 'b' := by
  rcases h with ⟨var, val, h⟩ | ⟨flag, h⟩ | ⟨cfg, flag, h⟩ <;> rw [h] <;> rfl

theorem lineForm_action_env (var v : String) : LineForm (write_action_env_line var v) := by
  refine Or.inl ⟨var.data, v.data, ?_⟩
  show (("build --action_env " ++ var ++ "=\"" ++ v ++ "\"") : String).data = _
  simp only [String.data_append, List.append_assoc]
  rfl

theorem lineFormT_action_env (var v : String) : LineFormT (write_action_env_line var v) :=
  Or.inl (lineForm_action_env var v)

theorem lineForm_take6 (s : String) (h : s.data.take 6 = "build ".data) : LineForm s :=
  Or.inr (Or.inl ⟨s.data.drop 6, by rw [← h]; exact (List.take_append_drop 6 s.data).symm⟩)

theorem lineForm_buildcfg (s : String) (cfg flag : List Char)
    (h : s.data = "build:".data ++ cfg ++ ' ' :: flag) : LineForm s :=
  Or.inr (Or.inr ⟨cfg, flag, h⟩)

theorem lineFormT_test (s : String) (h : s.data.take 14 = "test --config=".data) :
    LineFormT s :=
  Or.inr ⟨s.data.drop 14, by rw [← h]; exact (List.take_append_drop 14 s.data).symm⟩

theorem windows_lines_forms : ∀ s ∈ windows_lines, LineFormT s := by
  intro s hs
  simp only [windows_lines, List.mem_cons, List.not_mem_nil, or_false] at hs
  rcases hs with rfl | rfl | rfl | rfl | rfl
  · exact Or.inl (lineForm_take6 _ (by decide))
  · exact Or.inl (lineForm_buildcfg _ "windows".data "--enable_runfiles".data (by decide))
  · exact Or.inl (lineForm_buildcfg _ "windows".data "--copt=/experimental:preprocessor".data
      (by decide))
  · exact Or.inl (lineForm_buildcfg _ "windows".data
      "--host_copt=/experimental:preprocessor".data (by decide))
  · exact Or.inl (lineForm_buildcfg _ "windows".data "--copt=/arch=AVX".data (by decide))

theorem gpu_lines_forms (w : World) : ∀ s ∈ gpu_lines w, LineFormT s := by
  intro s hs
  unfold gpu_lines at hs
  by_cases hc : (w.env.TF_NEED_CUDA.getD "0" == "1") = true
  · rw [if_pos hc] at hs
    simp only [configure_cuda_lines, List.mem_cons, List.not_mem_nil, or_false] at hs
    rcases hs with rfl | rfl | rfl | rfl | rfl | rfl | rfl | rfl | rfl
    · exact lineFormT_action_env _ _
    · exact lineFormT_action_env _ _
    · exact lineFormT_action_env _ _
    · exact lineFormT_action_env _ _
    · exact lineFormT_action_env _ _
    · exact lineFormT_test _ (by decide)
    · exact Or.inl (lineForm_take6 _ (by decide))
    · exact Or.inl (lineForm_buildcfg _ "cuda".data
        "--define=using_cuda=true --define=using_cuda_nvcc=true".data (by decide))
    · exact Or.inl (lineForm_buildcfg _ "cuda".data
        "--crosstool_top=@local_config_cuda//crosstool:toolchain".data (by decide))
  · rw [if_neg hc] at hs
    by_cases hr : (w.env.TF_NEED_ROCM.getD "0" == "1") = true
    · rw [if_pos hr] at hs
      simp only [configure_rocm_lines, List.mem_cons, List.not_mem_nil, or_false] at hs
      rcases hs with rfl | rfl | rfl | rfl | rfl | rfl | rfl | rfl
      · exact lineFormT_action_env _ _
      · exact lineFormT_action_env _ _
      · exact lineFormT_test _ (by decide)
      · exact Or.inl (lineForm_take6 _ (by decide))
      · exact Or.inl (lineForm_buildcfg _ "rocm".data "--define=using_rocm_hipcc=true".data
          (by decide))
      · exact Or.inl (lineForm_buildcfg _ "rocm".data
          "--define=tensorflow_mkldnn_contraction_kernel=0".data (by decide))
      · exact Or.inl (lineForm_buildcfg _ "rocm".data "--repo_env TF_NEED_ROCM=1".data
          (by decide))
      · exact Or.inl (lineForm_buildcfg _ "rocm".data
          "--crosstool_top=@local_config_rocm//crosstool:toolchain".data (by decide))
    · rw [if_neg hr] at hs
      exact absurd hs (List.not_mem_nil s)

theorem base_lines_forms (w : World) (hd sld sln : String) (tfvi : Int) :
    ∀ s ∈ base_lines w hd sld sln tfvi, LineFormT s := by
  intro s hs
  unfold base_lines at hs
  rcases List.mem_append.mp hs with hs | hs
  · rcases List.mem_append.mp hs with hs | hs
    · simp only [List.mem_cons, List.not_mem_nil, or_false] at hs
      rcases hs with rfl | rfl | rfl | rfl | rfl | rfl | rfl | rfl | rfl
      · exact lineFormT_action_env _ _
      · exact lineFormT_action_env _ _
      · exact lineFormT_action_env _ _
      · exact lineFormT_action_env _ _
      · exact lineFormT_action_env _ _
      · exact lineFormT_action_env _ _
      · exact Or.inl (lineForm_take6 _ (by decide))
      · exact Or.inl (lineForm_take6 _ (by decide))
      · exact Or.inl (lineForm_take6 _ (by decide))
    · by_cases hw : is_windows w = true
      · rw [if_pos hw] at hs
        exact windows_lines_forms s hs
      · rw [if_neg hw] at hs
        exact absurd hs (List.not_mem_nil s)
  · by_cases hm : ((is_macos w || is_linux w) && !is_arm64 w) = true
    · rw [if_pos hm] at hs
      simp only [List.mem_singleton] at hs
      subst hs
      exact Or.inl (lineForm_take6 _ (by decide))
    · rw [if_neg hm] at hs
      exact absurd hs (List.not_mem_nil s)

/-- C4 (amended): every line any run ever appends to `.bazelrc` — over
every world, even runs that abort midway — matches one of the forms
`build --action_env VAR="VALUE"`, `build <flag>`, `build:<config> <flag>`,
or `test --config=<config>`; the last form, absent from the claim, is
emitted by the CUDA and ROCm blocks. -/
theorem run_lines_directive_forms :
    ∀ (w : World) (s : String), s ∈ (run w).1 → LineFormT s := by
  intro w s hs
  unfold run at hs
  rcases hv : validate_phase w with e | u
  · rw [hv] at hs
    exact absurd hs (List.not_mem_nil s)
  · rw [hv] at hs
    dsimp only at hs
    unfold emit_phase at hs
    rcases h1 : get_tf_header_dir w with e | hd
    · rw [h1] at hs
      exact absurd hs (List.not_mem_nil s)
    · rw [h1] at hs
      dsimp only at hs
      rcases h2 : get_tf_shared_lib_dir w with e | sld
      · rw [h2] at hs
        simp only [List.mem_singleton] at hs
        subst hs
        exact lineFormT_action_env _ _
      · rw [h2] at hs
        dsimp only at hs
        rcases h3 : get_shared_lib_name w with e | sln
        · rw [h3] at hs
          simp only [List.mem_cons, List.not_mem_nil, or_false] at hs
          rcases hs with rfl | rfl
          · exact lineFormT_action_env _ _
          · exact lineFormT_action_env _ _
        · rw [h3] at hs
          dsimp only at hs
          rcases h4 : get_tf_version_integer w.tf.version with e | tfvi
          · rw [h4] at hs
            simp only [List.mem_cons, List.not_mem_nil, or_false] at hs
            rcases hs with rfl | rfl | rfl | rfl
            · exact lineFormT_action_env _ _
            · exact lineFormT_action_env _ _
            · exact lineFormT_action_env _ _
            · exact lineFormT_action_env _ _
          · rw [h4] at hs
            dsimp only at hs
            rcases List.mem_append.mp hs with hs | hs
            · exact base_lines_forms w hd sld sln tfvi s hs
            · exact gpu_lines_forms w s hs

/-- Witness for the directive-forms theorem: the `test --config=cuda` line
of a concrete CUDA run satisfies the amended form predicate. -/
theorem run_lines_directive_forms_witness :
    "test --config=cuda" ∈ (run wWindowsCuda).1 ∧ LineFormT "test --config=cuda" :=
  ⟨by decide, run_lines_directive_forms wWindowsCuda "test --config=cuda" (by decide)⟩

/-- C4 counterexample: with `TF_NEED_CUDA=1` the run appends the line
`test --config=cuda`, which matches none of the three claimed forms — they
all begin with `build`, this line begins with `test`. -/
theorem test_config_line_counterexample :
    "test --config=cuda" ∈ (run wWindowsCuda).1 ∧ ¬ LineForm "test --config=cuda" := by
  refine ⟨by decide, fun h => ?_⟩
  exact absurd (lineForm_head _ h) (by decide)

/-- Whether `p` occurs at the start of `l`. -/
def beginsWith : List Char → List Char → Bool
  | [], _ => true
  | _ :: _, [] => false
  | p :: ps, c :: cs => p == c && beginsWith ps cs

/-- Whether `p` occurs anywhere inside `l`. -/
def containsSeq (p : List Char) : List Char → Bool
  | [] => beginsWith p []
  | c :: cs => beginsWith p (c :: cs) || containsSeq p cs

/-- Whether a line mentions AVX in any of the spellings the build flags
could use. -/
def mentionsAvx (s : String) : Bool :=
  containsSeq "avx".data s.data || containsSeq "AVX".data s.data
    || containsSeq "Avx".data s.data

/-- C5 counterexample: a successful run on a Windows non-arm64 host whose
configuration file contains the AVX directive under the `windows` build
config but no AVX directive under the default config — the only line
mentioning AVX at all is the `windows`-scoped one, because the
default-config `build --copt=-mavx` line is emitted only on macOS/Linux
hosts. -/
theorem windows_avx_counterexample :
    is_windows wWindows = true ∧ is_arm64 wWindows = false ∧ (run wWindows).2 = none ∧
    "build:windows --copt=/arch=AVX" ∈ (run wWindows).1 ∧
    ¬ "build --copt=-mavx" ∈ (run wWindows).1 ∧
    (run wWindows).1.filter mentionsAvx = ["build:windows --copt=/arch=AVX"] := by decide

theorem write_action_env_get8 (var v : String) :
    (write_action_env_line var v).data[8]? = some 'a' := by
  show (("build --action_env " ++ var ++ "=\"" ++ v ++ "\"") : String).data[8]? = some 'a'
  simp only [String.data_append, List.append_assoc]
  rfl

theorem action_env_ne_mavx (var v : String) :
    write_action_env_line var v ≠ "build --copt=-mavx" := by
  intro h
  have h8 := write_action_env_get8 var v
  rw [h] at h8
  exact absurd h8 (by decide)

/-- C5 (amended): on every Windows non-arm64 host whose run succeeds, the
configuration file contains the AVX code-generation directive under the
`windows` build config only: the default-config AVX line
`build --copt=-mavx` is never among the emitted lines, since it is guarded
by `is_macos() or is_linux()`. -/
theorem windows_avx_only_windows_config (w : World) (hwin : is_windows w = true)
    (harm : is_arm64 w = false) (h : (run w).2 = none) :
    "build:windows --copt=/arch=AVX" ∈ (run w).1 ∧
    ¬ "build --copt=-mavx" ∈ (run w).1 := by
  obtain ⟨hd, sld, sln, tfvi, h1, h2, h3, h4, hl⟩ := run_success_shape w h
  rw [hl]
  have hsys : w.host.system = "Windows" := by simpa [is_windows] using hwin
  have hmac : is_macos w = false := by simp [is_macos, hsys]
  have hlin : is_linux w = false := by simp [is_linux, hsys]
  constructor
  · have hwmem : "build:windows --copt=/arch=AVX" ∈ windows_lines := by decide
    unfold base_lines
    rw [if_pos hwin]
    simp [List.mem_append, hwmem]
  · intro hmem
    rcases List.mem_append.mp hmem with hmem | hmem
    · unfold base_lines at hmem
      rcases List.mem_append.mp hmem with hmem | hmem
      · rcases List.mem_append.mp hmem with hmem | hmem
        · simp only [List.mem_cons, List.not_mem_nil, or_false] at hmem
          rcases hmem with h' | h' | h' | h' | h' | h' | h' | h' | h'
          · exact action_env_ne_mavx _ _ h'.symm
          · exact action_env_ne_mavx _ _ h'.symm
          · exact action_env_ne_mavx _ _ h'.symm
          · exact action_env_ne_mavx _ _ h'.symm
          · exact action_env_ne_mavx _ _ h'.symm
          · exact action_env_ne_mavx _ _ h'.symm
          · exact absurd h' (by decide)
          · exact absurd h' (by decide)
          · exact absurd h' (by decide)
        · rw [if_pos hwin] at hmem
          exact absurd hmem (by decide)
      · rw [if_neg (by simp [hmac, hlin])] at hmem
        exact absurd hmem (List.not_mem_nil _)
    · unfold gpu_lines at hmem
      by_cases hc : (w.env.TF_NEED_CUDA.getD "0" == "1") = true
      · rw [if_pos hc] at hmem
        simp only [configure_cuda_lines, List.mem_cons, List.not_mem_nil, or_false] at hmem
        rcases hmem with h' | h' | h' | h' | h' | h' | h' | h' | h'
        · exact action_env_ne_mavx _ _ h'.symm
        · exact action_env_ne_mavx _ _ h'.symm
        · exact action_env_ne_mavx _ _ h'.symm
        · exact action_env_ne_mavx _ _ h'.symm
        · exact action_env_ne_mavx _ _ h'.symm
        · exact absurd h' (by decide)
        · exact absurd h' (by decide)
        · exact absurd h' (by decide)
        · exact absurd h' (by decide)
      · rw [if_neg hc] at hmem
        by_cases hr : (w.env.TF_NEED_ROCM.getD "0" == "1") = true
        · rw [if_pos hr] at hmem
          simp only [configure_rocm_lines, List.mem_cons, List.not_mem_nil, or_false] at hmem
          rcases hmem with h' | h' | h' | h' | h' | h' | h' | h'
          · exact action_env_ne_mavx _ _ h'.symm
          · exact action_env_ne_mavx _ _ h'.symm
          · exact absurd h' (by decide)
          · exact absurd h' (by decide)
          · exact absurd h' (by decide)
          · exact absurd h' (by decide)
          · exact absurd h' (by decide)
          · exact absurd h' (by decide)
        · rw [if_neg hr] at hmem
          exact absurd hmem (List.not_mem_nil _)

/-- Witness for the Windows AVX theorem at the concrete Windows world. -/
theorem windows_avx_only_windows_config_witness :
    "build:windows --copt=/arch=AVX" ∈ (run wWindows).1 ∧
    ¬ "build --copt=-mavx" ∈ (run wWindows).1 :=
  windows_avx_only_windows_config wWindows (by decide) (by decide) (by decide)

/-- C6: with `TF_NEED_CUDA=1` and `TF_CUDA_VERSION` unset, every
successful run's file contains the `TF_CUDA_VERSION="11.0"` action-env
line and the CUDA crosstool toolchain directive; with neither GPU variable
equal to `"1"`, the GPU block is empty and the file is exactly the base
sequence, containing no CUDA and no ROCm directives. -/
theorem cuda_defaults_and_cpu_only :
    (∀ w : World, w.env.TF_NEED_CUDA = some "1" → w.env.TF_CUDA_VERSION = none →
      (run w).2 = none →
      write_action_env_line "TF_CUDA_VERSION" "11.0" ∈ (run w).1 ∧
      "build:cuda --crosstool_top=@local_config_cuda//crosstool:toolchain" ∈ (run w).1) ∧
    (∀ w : World, ¬ w.env.TF_NEED_CUDA.getD "0" = "1" → ¬ w.env.TF_NEED_ROCM.getD "0" = "1" →
      gpu_lines w = [] ∧
      ((run w).2 = none → ∃ hd sld sln tfvi, (run w).1 = base_lines w hd sld sln tfvi)) := by
  constructor
  · intro w hc hv h
    obtain ⟨hd, sld, sln, tfvi, h1, h2, h3, h4, hl⟩ := run_success_shape w h
    rw [hl]
    have hgpu : gpu_lines w = configure_cuda_lines w.env := by
      unfold gpu_lines
      rw [if_pos (by rw [hc]; rfl)]
    have hmem1 : write_action_env_line "TF_CUDA_VERSION" "11.0" ∈ configure_cuda_lines w.env := by
      unfold configure_cuda_lines
      rw [hv]
      simp
    have hmem2 : "build:cuda --crosstool_top=@local_config_cuda//crosstool:toolchain"
        ∈ configure_cuda_lines w.env := by
      unfold configure_cuda_lines
      simp
    rw [hgpu]
    exact ⟨List.mem_append.mpr (Or.inr hmem1), List.mem_append.mpr (Or.inr hmem2)⟩
  · intro w hc hr
    have hgpu : gpu_lines w = [] := by
      unfold gpu_lines
      rw [if_neg (by simpa using hc), if_neg (by simpa using hr)]
    refine ⟨hgpu, fun h => ?_⟩
    obtain ⟨hd, sld, sln, tfvi, h1, h2, h3, h4, hl⟩ := run_success_shape w h
    exact ⟨hd, sld, sln, tfvi, by rw [hl, hgpu, List.append_nil]⟩

/-- Witness for the CUDA-defaults theorem: the concrete CUDA run contains
both directives; the concrete CPU-only world has an empty GPU block. -/
theorem cuda_defaults_and_cpu_only_witness :
    write_action_env_line "TF_CUDA_VERSION" "11.0" ∈ (run wWindowsCuda).1 ∧
    "build:cuda --crosstool_top=@local_config_cuda//crosstool:toolchain" ∈ (run wWindowsCuda).1 ∧
    gpu_lines wWindows = [] := by
  have h1 := cuda_defaults_and_cpu_only.1 wWindowsCuda rfl rfl (by decide)
  have h2 := cuda_defaults_and_cpu_only.2 wWindows (by decide) (by decide)
  exact ⟨h1.1, h1.2, h2.1⟩

/-- The Windows world with `TF_NEED_CUDA=true`, a truthy spelling that is
not the exact string `"1"`. -/
def wWindowsCudaTrue : World :=
  ⟨⟨"Windows", "AMD64", ""⟩, ⟨"2.5.1", ["-I/tf/include"], [], 0⟩,
   ⟨none, some "true", none, none, none, none, none, none⟩, "/src", "0.0.0", 0⟩

/-- The Windows world with both `TF_NEED_CUDA=1` and `TF_NEED_ROCM=1`. -/
def wWindowsBoth : World :=
  ⟨⟨"Windows", "AMD64", ""⟩, ⟨"2.5.1", ["-I/tf/include"], [], 0⟩,
   ⟨none, some "1", some "1", none, none, none, none, none⟩, "/src", "0.0.0", 0⟩

/-- C10: the GPU-backend selection compares against the exact string
`"1"`: whenever `TF_NEED_CUDA` (with default `"0"`) is anything but `"1"`
— including truthy spellings — no CUDA block is emitted and `TF_NEED_ROCM`
alone decides the block; and when both variables equal `"1"`, only the
CUDA block is emitted, the ROCm block being suppressed. -/
theorem gpu_flag_exact_match :
    (∀ w : World, ¬ w.env.TF_NEED_CUDA.getD "0" = "1" →
      gpu_lines w =
        (if w.env.TF_NEED_ROCM.getD "0" == "1" then configure_rocm_lines w.env else [])) ∧
    (∀ w : World, w.env.TF_NEED_CUDA = some "1" → w.env.TF_NEED_ROCM = some "1" →
      gpu_lines w = configure_cuda_lines w.env) := by
  constructor
  · intro w hc
    unfold gpu_lines
    rw [if_neg (by simpa using hc)]
  · intro w hc hr
    unfold gpu_lines
    rw [if_pos (by rw [hc]; rfl)]

/-- Witness for the exact-match theorem: `TF_NEED_CUDA=true` yields no GPU
block at all, and setting both variables to `"1"` yields exactly the CUDA
block. -/
theorem gpu_flag_exact_match_witness :
    gpu_lines wWindowsCudaTrue = [] ∧
    gpu_lines wWindowsBoth = configure_cuda_lines wWindowsBoth.env := by
  have h1 := gpu_flag_exact_match.1 wWindowsCudaTrue (by decide)
  have h2 := gpu_flag_exact_match.2 wWindowsBoth rfl rfl
  exact ⟨by rw [h1]; decide, h2⟩

theorem foldl_file_append_some (ls : List String) : ∀ acc : List String,
    ls.foldl file_append (some acc) = some (acc ++ ls) := by
  induction ls with
  | nil => intro acc; simp
  | cons l t ih =>
    intro acc
    show t.foldl file_append (file_append (some acc) l) = some (acc ++ l :: t)
    rw [show file_append (some acc) l = some (acc ++ [l]) from rfl, ih]
    simp

theorem foldl_file_append_none (ls : List String) (h : ls ≠ []) :
    ls.foldl file_append none = some ls := by
  cases ls with
  | nil => exact absurd rfl h
  | cons l t =>
    show t.foldl file_append (file_append none l) = some (l :: t)
    rw [show file_append none l = some [l] from rfl, foldl_file_append_some]
    rfl

/-- C8: there is no partial-success mode around validation: a run that
fails during the validation prefix (bazel checks or header extraction,
including version parsing) leaves `.bazelrc` missing — whatever file
existed before was already deleted and nothing was written; a run whose
write phase completes leaves exactly its full line sequence (the base
sequence plus the GPU block) as the file's content. -/
theorem no_partial_success :
    (∀ (w : World) (p : Option (List String)) (e : ConfigError),
      validate_phase w = .error e → file_after_run p w = none) ∧
    (∀ (w : World) (p : Option (List String)), (run w).2 = none →
      file_after_run p w = some ((run w).1) ∧
      ∃ hd sld sln tfvi, (run w).1 = base_lines w hd sld sln tfvi ++ gpu_lines w) := by
  constructor
  · intro w p e hv
    unfold file_after_run
    have hr : run w = ([], some e) := by unfold run; rw [hv]
    rw [hr]
    cases p <;> rfl
  · intro w p h
    obtain ⟨hd, sld, sln, tfvi, h1, h2, h3, h4, hl⟩ := run_success_shape w h
    refine ⟨?_, hd, sld, sln, tfvi, hl⟩
    unfold file_after_run
    have hst : (if p.isSome then none else p) = (none : Option (List String)) := by
      cases p <;> rfl
    rw [hst, hl]
    have hne : base_lines w hd sld sln tfvi ++ gpu_lines w ≠ [] := by
      unfold base_lines
      simp
    rw [foldl_file_append_none _ hne]

/-- Witness for the no-partial-success theorem: a stale file vanishes when
validation fails on the malformed-version world, and the Windows world's
successful run replaces a stale file with its own full line sequence. -/
theorem no_partial_success_witness :
    file_after_run (some ["stale"]) wBadVersion = none ∧
    file_after_run (some ["stale"]) wWindows = some ((run wWindows).1) := by
  have h1 := no_partial_success.1 wBadVersion (some ["stale"]) (.malformed "2.0") (by decide)
  have h2 := no_partial_success.2 wWindows (some ["stale"]) (by decide)
  exact ⟨h1, h2.1⟩

/-- C9: rerunning the generator is idempotent: the file state a run leaves
does not depend on the previous file state — the old file is deleted up
front — so two consecutive runs under the same world produce byte-identical
file content, and running again on a run's own output reproduces it. -/
theorem run_idempotent :
    ∀ (w : World) (p q : Option (List String)),
      file_after_run p w = file_after_run q w ∧
      file_after_run (file_after_run p w) w = file_after_run p w ∧
      file_bytes (file_after_run p w) = file_bytes (file_after_run q w) := by
  intro w p q
  have hkey : ∀ r : Option (List String),
      file_after_run r w = (run w).1.foldl file_append none := by
    intro r
    unfold file_after_run
    cases r <;> rfl
  exact ⟨by rw [hkey p, hkey q], by rw [hkey, hkey], by rw [hkey p, hkey q]⟩

end Configure
